import Mathlib

/-!
Verification of the document-analysis pipeline (results.py, data_to_pdf.py).

Strings are modelled as `List Char`; Python floats as exact unnormalised
fractions `Frac` (an integer numerator over a positive natural denominator:
the arithmetic the claims depend on — sums, means, sign tests and order
comparisons on small decimals — is exact, and all operations reduce in the
kernel); machine effects (the PDF library, network, the model endpoint) as
explicit oracle arguments; exceptions as `Except`.
-/

deriving instance DecidableEq for Except

namespace StockAnalyzer

/-! ### Exact fractions

`Frac` represents the value `num / den`. Fractions are never normalised;
value equality and order are expressed by cross-multiplication (`Frac.eqv`,
`Frac.le`, `Frac.lt`), which agrees with the rational order because
denominators are positive. -/

structure Frac where
  num : ℤ
  den : ℕ+
deriving DecidableEq

/-- The denominator as an integer. -/
def Frac.denZ (a : Frac) : ℤ := ((a.den : ℕ) : ℤ)

/-- `a / b + c / d = (a * d + c * b) / (b * d)`. -/
def Frac.add (a b : Frac) : Frac := ⟨a.num * b.denZ + b.num * a.denZ, a.den * b.den⟩

/-- Division of a fraction by a positive natural number. -/
def Frac.divPNat (a : Frac) (m : ℕ+) : Frac := ⟨a.num, a.den * m⟩

def Frac.zero : Frac := ⟨0, 1⟩

/-- Order on the represented rational values. -/
def Frac.le (a b : Frac) : Prop := a.num * b.denZ ≤ b.num * a.denZ

/-- Strict order on the represented rational values. -/
def Frac.lt (a b : Frac) : Prop := a.num * b.denZ < b.num * a.denZ

/-- Equality of the represented rational values. -/
def Frac.eqv (a b : Frac) : Prop := a.num * b.denZ = b.num * a.denZ

instance (a b : Frac) : Decidable (Frac.le a b) := show Decidable (_ ≤ _) from inferInstance

instance (a b : Frac) : Decidable (Frac.lt a b) := show Decidable (_ < _) from inferInstance

instance (a b : Frac) : Decidable (Frac.eqv a b) := show Decidable (_ = _) from inferInstance


/-! ### String helpers (Python `str` operations on `List Char`) -/

/-- Python whitespace characters (`str.strip` / regex `\s`, ASCII range). -/
def pySpace (c : Char) : Bool :=
  c = ' ' || c = '\t' || c = '\n' || c = '\r' || c = '\x0b' || c = '\x0c'

/-- Python `str.lstrip()`. -/
def lstrip (l : List Char) : List Char := l.dropWhile pySpace

/-- Python `str.rstrip()`. -/
def rstrip (l : List Char) : List Char := (l.reverse.dropWhile pySpace).reverse

/-- Python `str.strip()`. -/
def pstrip (l : List Char) : List Char := lstrip (rstrip l)

/-- Python `str.split(sep)` for a one-character separator: keeps empty parts,
`"".split(sep) = [""]`. -/
def splitOnChar (sep : Char) : List Char → List (List Char)
  | [] => [[]]
  | c :: rest =>
    if c = sep then [] :: splitOnChar sep rest
    else
      match splitOnChar sep rest with
      | [] => [[c]]
      | p :: ps => (c :: p) :: ps

/-- Python `os.path.basename` (POSIX): everything after the last `/`.
Also models `url.split("/")[-1]` in `_download_pdf`. -/
def basename (l : List Char) : List Char := (splitOnChar '/' l).getLastD []

/-- Python `str.lower()` (ASCII inputs). -/
def lowerStr (l : List Char) : List Char := l.map Char.toLower

/-- Python `str.upper()` (ASCII inputs). -/
def upperStr (l : List Char) : List Char := l.map Char.toUpper

/-! ### Number extraction: `re.findall(r"-?\d+\.?\d*", s)` and the midpoint -/

/-- Value of a digit string, e.g. `digitsVal ['1','2'] = 12`. -/
def digitsVal (ds : List Char) : Nat := ds.foldl (fun n c => 10 * n + (c.toNat - 48)) 0

/-- The value of the decimal literal with sign `neg`, integer digits `ds` and
fractional digits `fs` (what Python's `float` returns on the matched text,
represented exactly). -/
def decimalVal (neg : Bool) (ds fs : List Char) : Frac :=
  let n : ℤ := (digitsVal ds * 10 ^ fs.length + digitsVal fs : ℕ)
  ⟨if neg then -n else n, ⟨10 ^ fs.length, pow_pos (by decide) _⟩⟩

/-- Try to match the regex `-?\d+\.?\d*` at the head of `cs`; on success return
the matched number's value and the remaining characters. The optional `-` is
consumed only when followed by at least one digit (the regex backtracks over
`-?` otherwise, and `\d+` then fails at the `-`). -/
def matchNum (cs : List Char) : Option (Frac × List Char) :=
  let neg := cs.head? = some '-'
  let cs1 := if neg then cs.tail else cs
  let ds := cs1.takeWhile Char.isDigit
  if ds.isEmpty then none
  else
    let cs2 := cs1.dropWhile Char.isDigit
    let fs := if cs2.head? = some '.' then cs2.tail.takeWhile Char.isDigit else []
    let cs3 := if cs2.head? = some '.' then cs2.tail.dropWhile Char.isDigit else cs2
    some (decimalVal neg ds fs, cs3)

/-- `re.findall` scan: try a match at each position, emit it and resume after
the matched text, else advance one character. Fuelled recursion; a successful
match consumes at least one character and a failure advances one character, so
fuel equal to the list length suffices. -/
def findNumsAux : Nat → List Char → List Frac
  | 0, _ => []
  | _, [] => []
  | fuel + 1, c :: rest =>
    match matchNum (c :: rest) with
    | some (v, rem) => v :: findNumsAux fuel rem
    | none => findNumsAux fuel rest

/-- `price_mid` (src/results.py:100): all numbers matched by `-?\d+\.?\d*`. -/
def price_mid (s : List Char) : List Frac := findNumsAux s.length s

/-- Sum of a list of fractions (Python `sum`, starting from `0`). -/
def sumF (l : List Frac) : Frac := l.foldl Frac.add Frac.zero

/-- The `Mid_%` column (src/results.py:170): mean of the extracted numbers, or
`0` when none are found. -/
def mid_percent (s : List Char) : Frac :=
  let ns := price_mid s
  if h : ns = [] then Frac.zero
  else (sumF ns).divPNat ⟨ns.length, List.length_pos.mpr h⟩

/-! ### Result parser: `split_line` (src/results.py:32) -/

/-- Strip the parts produced by splitting on `|` the way
`re.split(r"\s*\|\s*", l)` does: each match of the pattern consumes one `|`
together with the maximal whitespace runs immediately before and after it, so
the part left of a `|` loses its trailing whitespace, the part right of a `|`
loses its leading whitespace, and a string with no `|` is returned unchanged.
The `Bool` records whether the current part is the first one. -/
def stripPipeParts : Bool → List (List Char) → List (List Char)
  | _, [] => []
  | isFirst, [p] => [if isFirst then p else lstrip p]
  | isFirst, p :: ps => rstrip (if isFirst then p else lstrip p) :: stripPipeParts false ps

/-- `re.split(r"\s*\|\s*", l)`. -/
def pipe_split (l : List Char) : List (List Char) :=
  stripPipeParts true (splitOnChar '|' l)

/-- `split_line` (src/results.py:32): split on tabs when the line contains
exactly 4 tab characters, otherwise split on `|` tolerating surrounding
whitespace. -/
def split_line (l : List Char) : List (List Char) :=
  if l.count '\t' = 4 then splitOnChar '\t' l else pipe_split l

/-! ### Text extractor: `_extract_text` (src/results.py:34-45)

A PDF is modelled by what `pdfplumber` yields from it: either an exception
while opening/parsing (`Except.error`), or the list of pages, where each page's
`extract_text()` returns `none` (Python `None`) or some text. -/

/-- The page loop of `_extract_text`: starting at page index `i` with
accumulated text `txt`, stop as soon as `i ≥ 5` (max_pages) or the accumulated
text exceeds 12000 characters (max_chars), otherwise append the page's text
(`extract_text() or ""`) plus a newline. -/
def extractLoop : List (Option (List Char)) → Nat → List Char → List Char
  | [], _, txt => txt
  | p :: ps, i, txt =>
    if 5 ≤ i ∨ 12000 < txt.length then txt
    else extractLoop ps (i + 1) (txt ++ p.getD [] ++ ['\n'])

/-- `_extract_text` (src/results.py:34-45) with the source's default bounds
`max_pages = 5`, `max_chars = 12_000`: on any exception return `""`, otherwise
run the page loop and truncate to 12000 characters (`txt[:max_chars]`). -/
def extract_text (pdf : Except Unit (List (Option (List Char)))) : List Char :=
  match pdf with
  | .error _ => []
  | .ok pages => (extractLoop pages 0 []).take 12000

/-! ### Classifier client: `_call_llm` (src/results.py:47-65)

The completion endpoint is modelled by an oracle giving, for each attempt
number, the outcome of `client.chat.completions.create`: a successful answer,
a connection/timeout-class exception (`openai.APIConnectionError`,
`httpx.ReadTimeout`, `httpx.ConnectError`), or any other exception. A raised
exception that propagates out of `_call_llm` is `Except.error ()`; a normal
return of `None` is `.ok none`. -/

inductive CallOutcome where
  | success (s : List Char)
  | connError
  | otherError
deriving DecidableEq

/-- `_call_llm` (src/results.py:47-65). The body of the Python loop
`for a in range(retries)` returns on every control path: `return` of the
stripped answer on success; on a connection-class error, `raise` when
`a == retries - 1` and otherwise `return None`; `return None` on any other
exception. Hence the loop never reaches a second iteration: the function is
the first iteration's body, guarded by `retries > 0` (an empty range falls
through to Python's implicit `return None`). -/
def call_llm (oracle : Nat → CallOutcome) (retries : Nat := 3) :
    Except Unit (Option (List Char)) :=
  if 0 < retries then
    match oracle 0 with
    | .success s => .ok (some (pstrip s))
    | .connError => if 0 = retries - 1 then .error () else .ok none
    | .otherError => .ok none
  else .ok none

/-- The number of attempts (calls to the completion endpoint) `_call_llm`
makes before returning or raising. -/
def call_llm_attempts (retries : Nat := 3) : Nat :=
  if 0 < retries then 1 else 0

/-! ### Per-document analysis: `_process_pdf` (src/results.py:67-92) -/

def BASE_URL : List Char := "https://www.bseindia.com/xml-data/corpfiling/AttachLive/".toList

def NA : List Char := "N/A".toList

/-- `re.search(r'^\((\d+)\)', file_name)` with fallback `"N/A"`, as used both
at src/results.py:88-89 (SCRIP_CD of a new row) and at src/results.py:172 (the
rewrite of the `File` column): the digit string of a leading `(digits)` prefix,
or `"N/A"` when the name has no such prefix. -/
def extract_scrip (s : List Char) : List Char :=
  match s with
  | [] => NA
  | c :: rest =>
    if c = '(' then
      let ds := rest.takeWhile Char.isDigit
      if ds ≠ [] ∧ (rest.dropWhile Char.isDigit).head? = some ')' then ds else NA
    else NA

/-- One analysis record as produced by `_process_pdf` (the dict at
src/results.py:91-92). -/
structure ResultRow where
  file : List Char
  pdf_link : List Char
  company : List Char
  scrip_cd : List Char
  impact : List Char
  summary : List Char
  price_range : List Char
  rationale : List Char
deriving DecidableEq

/-- `_process_pdf` (src/results.py:67-92), with its two effects passed in:
`text` is what `_extract_text` returned for the file and `resp` is what
`_call_llm` returned (`none` for Python `None`; `_call_llm` with the default
`retries = 3` never raises, see `call_llm`). Skips (`None` in Python) when the
text is empty or shorter than 300 characters, when there is no answer, or when
the split answer does not have exactly 5 fields. -/
def process_pdf (text : List Char) (resp : Option (List Char))
    (file_path : List Char) : Option ResultRow :=
  if text.length < 300 then none
  else
    match resp with
    | none => none
    | some r =>
      if r = [] then none
      else
        let parts := split_line r
        if h : parts.length = 5 then
          let file_name := basename file_path
          some { file := file_name
                 pdf_link := BASE_URL ++ file_name
                 company := pstrip parts[0]
                 scrip_cd := extract_scrip file_name
                 impact := pstrip parts[1]
                 summary := pstrip parts[2]
                 price_range := pstrip parts[3]
                 rationale := pstrip parts[4] }
        else none

/-! ### Acquisition: `_download_pdf` and the download pool (src/data_to_pdf.py) -/

/-- `_download_pdf` (src/data_to_pdf.py:15-28). The network and filesystem
interaction (`requests.get`, `raise_for_status`, streaming to the file) is
modelled by `net`: `.ok ()` when the download succeeds and `.error exc` when
any exception with message `exc` is raised inside the `try`. Every exception is
caught and turned into the tagged string `"FAIL: {url} ({exc})"`; on success
the local file path `pdf_dir/(scrip_cd)_<url basename>` is returned. The
function never raises: the computation of the file name from the string
arguments cannot fail, and the whole effectful body is inside the `try`. -/
def download_pdf (net : Except (List Char) Unit) (pdf_dir url scrip_cd : List Char) :
    List Char :=
  let original_fname := basename url
  let new_fname := '(' :: (scrip_cd ++ ")_".toList ++ original_fname)
  match net with
  | .ok _ => pdf_dir ++ '/' :: new_fname
  | .error exc => "FAIL: ".toList ++ url ++ " (".toList ++ exc ++ [')']

/-- The download pool of `download_announcement_pdfs` (src/data_to_pdf.py:58-62):
every submitted task `(url, scrip_cd)` produces exactly one outcome from its
own `_download_pdf` call; `net i` is the network behaviour of task `i`. Each
task is independent of the others, so a failing task never prevents a sibling
from completing. -/
def download_batch (net : Nat → Except (List Char) Unit) (pdf_dir : List Char) :
    Nat → List (List Char × List Char) → List (List Char)
  | _, [] => []
  | i, (url, scrip_cd) :: ts =>
    download_pdf (net i) pdf_dir url scrip_cd :: download_batch net pdf_dir (i + 1) ts

/-! ### Ranking and merge: `analyze_and_rank_pdfs` (src/results.py:95-183) -/

/-- The `impact_map` lookup table (src/results.py:101-102). -/
def impact_table : List (List Char × Nat) :=
  [("STRONGLY POSITIVE".toList, 5), ("BEAT".toList, 5), ("POSITIVE".toList, 4),
   ("NEUTRAL".toList, 3), ("MATCHED".toList, 3), ("NEGATIVE".toList, 2),
   ("STRONGLY NEGATIVE".toList, 1), ("MISSED".toList, 1)]

/-- `impact` (src/results.py:103): `impact_map.get(t.upper(), 0)`. -/
def impact (t : List Char) : Nat := (impact_table.lookup (upperStr t)).getD 0

/-- One row of the input CSV, restricted to the columns
`analyze_and_rank_pdfs` reads (`SCRIP_CD`, `ATTACHMENTNAME`, `is_new_entry`),
with the two string columns already taken through
`.fillna("").astype(str)` (missing values become `""`). -/
structure InputRow where
  scrip_cd : List Char
  attachmentname : List Char
  is_new_entry : Bool
deriving DecidableEq

/-- One row of a prior RunArtifact, with the column set the pipeline itself
writes at src/results.py:181 (`Rank`, `File`, `PDF_Link`, `Company`,
`SCRIP_CD`, `Impact`, `Summary`, `Price_Range`, `Rationale`, `Impact_Score`,
`Mid_%`). -/
structure PrevRow where
  rank : Nat
  file : List Char
  pdf_link : List Char
  company : List Char
  scrip_cd : List Char
  impact : List Char
  summary : List Char
  price_range : List Char
  rationale : List Char
  impact_score : Nat
  mid : Frac
deriving DecidableEq

/-- A result row after the derived columns `Impact_Score` (src/results.py:169)
and `Mid_%` (line 170) have been added and the `File` column has been
rewritten to the extracted scrip code (line 172). -/
structure ScoredRow where
  file : List Char
  pdf_link : List Char
  company : List Char
  scrip_cd : List Char
  impact : List Char
  summary : List Char
  price_range : List Char
  rationale : List Char
  impact_score : Nat
  mid : Frac
deriving DecidableEq

/-- A row of the final table, after `Rank` is inserted (src/results.py:180). -/
structure RankedRow where
  rank : Nat
  row : ScoredRow
deriving DecidableEq

/-- A pandas DataFrame as far as the claims observe it: its column labels and
its rows. `pd.DataFrame()` (the "nothing to do" return at src/results.py:161)
has no columns and no rows. -/
structure DF where
  cols : List String
  data : List RankedRow
deriving DecidableEq

/-- The column labels of the final ranked table, in the order pandas produces:
the 8 dict keys of `_process_pdf` rows, the two derived columns, and `Rank`
inserted at position 0. -/
def ranked_columns : List String :=
  ["Rank", "File", "PDF_Link", "Company", "SCRIP_CD", "Impact", "Summary",
   "Price_Range", "Rationale", "Impact_Score", "Mid_%"]

/-- Lines 169-172: add `Impact_Score` and `Mid_%` and rewrite `File` via
`df['File'].str.extract(r'^\((\d+)\)').fillna('N/A')`. -/
def score_row (r : ResultRow) : ScoredRow :=
  { file := extract_scrip r.file
    pdf_link := r.pdf_link
    company := r.company
    scrip_cd := r.scrip_cd
    impact := r.impact
    summary := r.summary
    price_range := r.price_range
    rationale := r.rationale
    impact_score := impact r.impact
    mid := mid_percent r.price_range }

def scored_rows (rows : List ResultRow) : List ScoredRow := rows.map score_row

/-- Line 175: `df = df[df["Mid_%"] > 0]`. -/
def filtered_rows (rows : List ResultRow) : List ScoredRow :=
  (scored_rows rows).filter fun r => decide (Frac.lt Frac.zero r.mid)

/-- The sort key order of line 177
(`sort_values(["Impact_Score", "Mid_%"], ascending=[False, False])`):
`a` may come no later than `b` when `a`'s impact score is larger, or the
scores are equal and `a`'s midpoint is at least `b`'s. -/
def row_le (a b : ScoredRow) : Prop :=
  b.impact_score < a.impact_score ∨
    (a.impact_score = b.impact_score ∧ Frac.le b.mid a.mid)

instance : DecidableRel row_le := fun a b =>
  inferInstanceAs (Decidable (b.impact_score < a.impact_score ∨
    (a.impact_score = b.impact_score ∧ Frac.le b.mid a.mid)))

instance : IsTotal ScoredRow row_le where
  total a b := by
    unfold row_le
    rcases Nat.lt_trichotomy a.impact_score b.impact_score with h | h | h
    · exact Or.inr (Or.inl h)
    · rcases Int.le_total (a.mid.num * b.mid.denZ) (b.mid.num * a.mid.denZ) with hm | hm
      · exact Or.inr (Or.inr ⟨h.symm, hm⟩)
      · exact Or.inl (Or.inr ⟨h, hm⟩)
    · exact Or.inl (Or.inl h)

instance : IsTrans ScoredRow row_le where
  trans a b c hab hbc := by
    have key : ∀ x y z : Frac, Frac.le x y → Frac.le y z → Frac.le x z := by
      intro x y z h1 h2
      have hx : (0 : ℤ) < x.denZ := by simp [Frac.denZ]
      have hy : (0 : ℤ) < y.denZ := by simp [Frac.denZ]
      have hz : (0 : ℤ) < z.denZ := by simp [Frac.denZ]
      unfold Frac.le at h1 h2 ⊢
      nlinarith [mul_le_mul_of_nonneg_right h1 (le_of_lt hz),
        mul_le_mul_of_nonneg_right h2 (le_of_lt hx)]
    unfold row_le at hab hbc ⊢
    rcases hab with h1 | ⟨e1, m1⟩ <;> rcases hbc with h2 | ⟨e2, m2⟩
    · exact Or.inl (h2.trans h1)
    · exact Or.inl (e2 ▸ h1)
    · exact Or.inl (e1 ▸ h2)
    · exact Or.inr ⟨e1.trans e2, key _ _ _ m2 m1⟩

/-- Line 177: the stable sort of the filtered rows by
(`Impact_Score` descending, `Mid_%` descending). A multi-column pandas
`sort_values` is a stable sort (it always uses a stable lexicographic sort for
more than one key), and a stable sort of a list by a total preorder is unique,
so it is modelled by insertion sort, which Mathlib proves sorted, a
permutation of its input, and stable. -/
def sorted_rows (rows : List ResultRow) : List ScoredRow :=
  List.insertionSort row_le (filtered_rows rows)

/-- Lines 179-180: `reset_index` then `insert(0, "Rank", df.index + 1)` —
attach 1-based positions. -/
def attach_ranks : Nat → List ScoredRow → List RankedRow
  | _, [] => []
  | n, r :: rs => ⟨n + 1, r⟩ :: attach_ranks (n + 1) rs

/-- Lines 169-180 as one function from the merged rows to the final table
body. -/
def rank_pipeline (rows : List ResultRow) : List RankedRow :=
  attach_ranks 0 (sorted_rows rows)

/-- Line 115-120: the expected PDF file name of an input row,
`"(" + SCRIP_CD.strip() + ")_" + basename(ATTACHMENTNAME).strip()`. -/
def pdf_file_of (r : InputRow) : List Char :=
  '(' :: (pstrip r.scrip_cd ++ ")_".toList ++ pstrip (basename r.attachmentname))

/-- Lines 123-126: the PDF files present in the folder
(`f.lower().endswith(".pdf")`), in directory-listing order. -/
def all_pdf_files (folder : List (List Char)) : List (List Char) :=
  folder.filter fun f => ".pdf".toList.isSuffixOf (lowerStr f)

/-- Line 129: `set(input_df["PDF_File"]) & all_pdf_files` — the names derived
from the `is_new_entry` rows that are present in the folder (as a list without
duplicates; only membership and emptiness are observed downstream). -/
def pdfs_to_analyze (input : List InputRow) (folder : List (List Char)) :
    List (List Char) :=
  (((input.filter (·.is_new_entry)).map pdf_file_of).dedup).filter
    (· ∈ all_pdf_files folder)

/-- Line 154: `set(all_pdf_files) - pdfs_to_analyze`. -/
def non_new_pdfs (input : List InputRow) (folder : List (List Char)) :
    List (List Char) :=
  (all_pdf_files folder).filter (· ∉ pdfs_to_analyze input folder)

/-- Lines 140-151: the analysis pool. `oracle f` is the value `_process_pdf`
returns for the file named `f` (always a normal return, see `call_llm`);
skipped documents (`None`) contribute no row. -/
def analyzed_rows (input : List InputRow) (folder : List (List Char))
    (oracle : List Char → Option ResultRow) : List ResultRow :=
  (pdfs_to_analyze input folder).filterMap oracle

/-- Lines 153-157: rows of the prior artifact carried forward — those whose
`File` value is a member of `non_new_pdfs`, provided the prior artifact is
non-empty and there is at least one non-new PDF. `prev` is `none` when no
prior output file exists (line 132). -/
def carried_rows (input : List InputRow) (folder : List (List Char))
    (prev : Option (List PrevRow)) : List PrevRow :=
  let prevRows := prev.getD []
  if prevRows ≠ [] ∧ non_new_pdfs input folder ≠ [] then
    prevRows.filter fun r => decide (r.file ∈ non_new_pdfs input folder)
  else []

/-- `analyze_and_rank_pdfs` (src/results.py:95-183).
`none` models the `return None` for a missing PDF folder (line 108);
`some (.ok df)` a normal return of the DataFrame `df`;
`some (.error ())` an uncaught pandas exception. The last arises whenever any
prior row is carried forward: such a row already has a `Rank` key (the prior
artifact was written after line 180), so the merged DataFrame has a `Rank`
column and `df.insert(0, "Rank", ...)` at line 180 raises
`ValueError: cannot insert Rank, already exists`. When nothing is carried
forward the merged rows are exactly the analyzed rows and lines 169-181 are
`rank_pipeline`. -/
def analyze_and_rank_pdfs (folder_exists : Bool) (input : List InputRow)
    (folder : List (List Char)) (prev : Option (List PrevRow))
    (oracle : List Char → Option ResultRow) : Option (Except Unit DF) :=
  if ¬ folder_exists then none
  else
    let analyzed := analyzed_rows input folder oracle
    let carried := carried_rows input folder prev
    if analyzed = [] ∧ carried = [] then some (.ok ⟨[], []⟩)
    else if carried ≠ [] then some (.error ())
    else some (.ok ⟨ranked_columns, rank_pipeline analyzed⟩)

/-! ### Concrete runs used as witnesses and counterexamples -/

/-- A classifier answer row for a document with a clearly positive move
(midpoint of "5% to 10%" is 7.5). -/
def sampleRow : ResultRow :=
  { file := "(101)_a.pdf".toList
    pdf_link := (BASE_URL ++ "(101)_a.pdf".toList)
    company := "Acme".toList
    scrip_cd := "101".toList
    impact := "POSITIVE".toList
    summary := "good quarter".toList
    price_range := "5% to 10%".toList
    rationale := "strong order book".toList }

/-- A classifier answer row whose price range "10-15%" has midpoint -2.5. -/
def negRow : ResultRow :=
  { file := "(202)_b.pdf".toList
    pdf_link := (BASE_URL ++ "(202)_b.pdf".toList)
    company := "Bolt".toList
    scrip_cd := "202".toList
    impact := "POSITIVE".toList
    summary := "priced move".toList
    price_range := "10-15%".toList
    rationale := "guidance".toList }

def sampleInput : InputRow :=
  { scrip_cd := "101".toList
    attachmentname := "https://h/a.pdf".toList
    is_new_entry := true }

def sampleFolder : List (List Char) := ["(101)_a.pdf".toList]

def sampleOracle : List Char → Option ResultRow :=
  fun f => if f = "(101)_a.pdf".toList then some sampleRow else none

/-- The table the pipeline produces on the sample run. -/
def sampleDF : DF := ⟨ranked_columns, [⟨1, score_row sampleRow⟩]⟩

/-- An oracle classifying the sample document with the negative-midpoint
answer, so that the run's only candidate row is removed by the filter. -/
def negOracle : List Char → Option ResultRow :=
  fun f => if f = "(101)_a.pdf".toList then some negRow else none

/-- The empty-but-ranked table of the all-filtered-out run. -/
def negDF : DF := ⟨ranked_columns, []⟩

/-- C2's failing input: the document list entry for identifier 123456, not a
new entry. -/
def staleInput : InputRow :=
  { scrip_cd := "123456".toList
    attachmentname := "https://h/a.pdf".toList
    is_new_entry := false }

/-- C2's failing input: the folder holds that identifier's downloaded PDF. -/
def staleFolder : List (List Char) := ["(123456)_a.pdf".toList]

/-- C2's failing input: the prior RunArtifact's row for identifier 123456, as
the pipeline itself wrote it — its `File` value is the extracted digit string
`"123456"` (src/results.py:172), not the on-disk filename. -/
def stalePrevRow : PrevRow :=
  { rank := 1
    file := "123456".toList
    pdf_link := (BASE_URL ++ "(123456)_a.pdf".toList)
    company := "Acme".toList
    scrip_cd := "123456".toList
    impact := "POSITIVE".toList
    summary := "good quarter".toList
    price_range := "5% to 10%".toList
    rationale := "strong order book".toList
    impact_score := 4
    mid := ⟨15, 2⟩ }

/-- A line with exactly 4 tabs. -/
def tabLine : List Char := "A\tPOSITIVE\tsummary\t5% to 10%\trationale".toList

/-- An extracted text long enough to pass the 300-character gate. -/
def longText : List Char := List.replicate 300 'x'

/-- A classifier answer with only 4 fields. -/
def fourFieldAnswer : List Char := "A | POSITIVE | summary | 5% to 10%".toList

/-- Ten download tasks (url, scrip_cd). -/
def batchTasks : List (List Char × List Char) :=
  [("https://h/d0.pdf".toList, "500".toList), ("https://h/d1.pdf".toList, "501".toList),
   ("https://h/d2.pdf".toList, "502".toList), ("https://h/d3.pdf".toList, "503".toList),
   ("https://h/d4.pdf".toList, "504".toList), ("https://h/d5.pdf".toList, "505".toList),
   ("https://h/d6.pdf".toList, "506".toList), ("https://h/d7.pdf".toList, "507".toList),
   ("https://h/d8.pdf".toList, "508".toList), ("https://h/d9.pdf".toList, "509".toList)]

/-- A network where tasks 2 and 7 raise (HTTP 404 from `raise_for_status`)
and the other eight succeed. -/
def batchNet : Nat → Except (List Char) Unit :=
  fun i => if i = 2 ∨ i = 7 then .error "404 Client Error".toList else .ok ()

/-! ### Helper lemmas -/

theorem attach_ranks_map_row (n : Nat) (l : List ScoredRow) :
    (attach_ranks n l).map RankedRow.row = l := by
  induction l generalizing n with
  | nil => rfl
  | cons r rs ih => simp [attach_ranks, ih]

theorem attach_ranks_map_rank (n : Nat) (l : List ScoredRow) :
    (attach_ranks n l).map RankedRow.rank = List.range' (n + 1) l.length := by
  induction l generalizing n with
  | nil => rfl
  | cons r rs ih => simp [attach_ranks, ih, List.range'_succ]

theorem attach_ranks_length (n : Nat) (l : List ScoredRow) :
    (attach_ranks n l).length = l.length := by
  induction l generalizing n with
  | nil => rfl
  | cons r rs ih => simp [attach_ranks, ih]

theorem mem_attach_ranks_row {r : RankedRow} {n : Nat} {l : List ScoredRow}
    (h : r ∈ attach_ranks n l) : r.row ∈ l := by
  have := List.mem_map_of_mem RankedRow.row h
  rwa [attach_ranks_map_row] at this

theorem mem_rank_pipeline {r : RankedRow} {rows : List ResultRow}
    (h : r ∈ rank_pipeline rows) : r.row ∈ filtered_rows rows := by
  unfold rank_pipeline at h
  have h2 : r.row ∈ sorted_rows rows := mem_attach_ranks_row h
  unfold sorted_rows at h2
  exact (List.mem_insertionSort row_le).mp h2

theorem mem_filtered_rows {x : ScoredRow} {rows : List ResultRow}
    (h : x ∈ filtered_rows rows) :
    (∃ orig ∈ rows, x = score_row orig) ∧ Frac.lt Frac.zero x.mid := by
  unfold filtered_rows scored_rows at h
  refine ⟨?_, ?_⟩
  · rcases List.mem_map.mp (List.mem_of_mem_filter h) with ⟨o, ho, he⟩
    exact ⟨o, ho, he.symm⟩
  · simpa using List.of_mem_filter h

/-- Inversion for a normal return of `analyze_and_rank_pdfs`: the result is
the empty DataFrame or the ranked table of the analyzed rows. -/
theorem analyze_ok_cases {fe : Bool} {input : List InputRow}
    {folder : List (List Char)} {prev : Option (List PrevRow)}
    {oracle : List Char → Option ResultRow} {df : DF}
    (h : analyze_and_rank_pdfs fe input folder prev oracle = some (.ok df)) :
    df = ⟨[], []⟩ ∨
      df = ⟨ranked_columns, rank_pipeline (analyzed_rows input folder oracle)⟩ := by
  simp only [analyze_and_rank_pdfs] at h
  split_ifs at h
  · exact Or.inl (by injection h with h2; injection h2 with h3; exact h3.symm)
  · exact absurd h (by simp)
  · exact Or.inr (by injection h with h2; injection h2 with h3; exact h3.symm)

/-- Every element of `extract_scrip`'s image is a non-empty digit string or
the literal `"N/A"`, and never contains `(`. -/
theorem extract_scrip_shape (s : List Char) :
    ((extract_scrip s ≠ [] ∧ (extract_scrip s).all Char.isDigit) ∨
      extract_scrip s = NA) ∧ '(' ∉ extract_scrip s := by
  have hna : ((NA ≠ [] ∧ NA.all Char.isDigit) ∨ NA = NA) ∧ '(' ∉ NA := by decide
  match s with
  | [] => exact hna
  | c :: rest =>
    simp only [extract_scrip]
    split_ifs with hc hd
    · refine ⟨Or.inl ⟨hd.1, ?_⟩, ?_⟩
      · exact List.all_eq_true.mpr fun x hx => List.mem_takeWhile_imp hx
      · intro hmem
        have : Char.isDigit '(' = true := List.mem_takeWhile_imp hmem
        exact absurd this (by decide)
    · exact hna
    · exact hna

/-! ### The claims -/

/-- Claim C1: the claim says `_call_llm` retries connection/timeout-class
failures up to 3 attempts and propagates the exception only when the 3rd
attempt fails. The code does not: the connection-error handler returns `None`
whenever the attempt is not the last one, so with `retries = 3` the first
connection error ends the call after a single attempt with a `None` return
(`.ok none`), never a propagated exception (`.error ()`), and the endpoint is
never consulted beyond attempt 0. -/
theorem call_llm_no_retry_on_connection_error :
    call_llm (fun _ => CallOutcome.connError) 3 = .ok none ∧
    call_llm_attempts 3 = 1 ∧
    (∀ oracle : Nat → CallOutcome, call_llm oracle 3 = call_llm (fun _ => oracle 0) 3) ∧
    (Except.ok none : Except Unit (Option (List Char))) ≠ .error () :=
  ⟨by decide, by decide, fun _ => rfl, by decide⟩

/-- Claim C2: with a prior RunArtifact present and every input row having
`isNewEntry = false`, the claim says the result carries forward, for each
identifier whose PDF is in the folder, the matching prior row. The code
instead produces an empty result: the prior artifact's `File` values are the
extracted digit strings (rewritten at src/results.py:172 before the artifact
was written), while `non_new_pdfs` holds full `(identifier)_<name>.pdf`
filenames, so `prev_df["File"].isin(non_new_pdfs)` matches nothing. On the
failing input — one non-new entry for identifier 123456, its PDF
`(123456)_a.pdf` in the folder, and the prior artifact's row for it — no PDF
is (correctly) re-analyzed, but the carried-forward set is empty and the run
returns the empty DataFrame instead of reproducing the prior row. -/
theorem carry_forward_loses_prior_rows :
    pdfs_to_analyze [staleInput] staleFolder = [] ∧
    non_new_pdfs [staleInput] staleFolder = ["(123456)_a.pdf".toList] ∧
    carried_rows [staleInput] staleFolder (some [stalePrevRow]) = [] ∧
    analyze_and_rank_pdfs true [staleInput] staleFolder (some [stalePrevRow])
      (fun _ => none) = some (.ok ⟨[], []⟩) := by
  refine ⟨by decide, by decide, by decide, by decide⟩

/-- Claim C3: every normally returned table is sorted by `Impact_Score`
descending then `Mid_%` descending (each row is `row_le`-before the next),
its `Rank` column is exactly the 1-based positions `[1, …, n]`, and the sort
is stable: two filtered rows with equal sort key that appear in order `[a, b]`
in the merged input still appear in that order after sorting. -/
theorem ranked_output_sorted_ranked_stable (fe : Bool) (input : List InputRow)
    (folder : List (List Char)) (prev : Option (List PrevRow))
    (oracle : List Char → Option ResultRow) (df : DF)
    (h : analyze_and_rank_pdfs fe input folder prev oracle = some (.ok df)) :
    List.Chain' (fun a b : RankedRow => row_le a.row b.row) df.data ∧
    df.data.map RankedRow.rank = List.range' 1 df.data.length ∧
    (∀ (rows : List ResultRow) (a b : ScoredRow),
      a.impact_score = b.impact_score → Frac.eqv a.mid b.mid →
      List.Sublist [a, b] (filtered_rows rows) → List.Sublist [a, b] (sorted_rows rows)) := by
  refine ⟨?_, ?_, ?_⟩
  · rcases analyze_ok_cases h with he | he <;> subst he
    · simp
    · show List.Chain' _ (rank_pipeline _)
      unfold rank_pipeline
      have hs : List.Pairwise row_le (sorted_rows (analyzed_rows input folder oracle)) :=
        List.sorted_insertionSort row_le _
      have hmap := attach_ranks_map_row 0 (sorted_rows (analyzed_rows input folder oracle))
      have hc : List.Chain' row_le
          ((attach_ranks 0 (sorted_rows (analyzed_rows input folder oracle))).map
            RankedRow.row) := by
        rw [hmap]; exact hs.chain'
      exact (List.chain'_map RankedRow.row).mp hc
  · rcases analyze_ok_cases h with he | he <;> subst he
    · simp
    · show (rank_pipeline _).map RankedRow.rank = List.range' 1 (rank_pipeline _).length
      unfold rank_pipeline
      rw [attach_ranks_map_rank, attach_ranks_length]
  · intro rows a b hscore hmid hsub
    have hle : row_le a b := Or.inr ⟨hscore, le_of_eq hmid.symm⟩
    exact List.pair_sublist_insertionSort hle hsub

/-- Witness for C3 on a concrete run producing one ranked row. -/
theorem ranked_output_sorted_ranked_stable_witness :
    List.Chain' (fun a b : RankedRow => row_le a.row b.row) sampleDF.data ∧
    sampleDF.data.map RankedRow.rank = List.range' 1 sampleDF.data.length ∧
    (∀ (rows : List ResultRow) (a b : ScoredRow),
      a.impact_score = b.impact_score → Frac.eqv a.mid b.mid →
      List.Sublist [a, b] (filtered_rows rows) → List.Sublist [a, b] (sorted_rows rows)) :=
  ranked_output_sorted_ranked_stable true [sampleInput] sampleFolder none
    sampleOracle sampleDF (by decide)

/-- Claim C4: every row of a normally returned table has a strictly positive
midpoint, and a price-range text with no numbers (such as "no numbers here")
has midpoint 0, so such rows never appear in the output. -/
theorem ranked_output_mid_positive (fe : Bool) (input : List InputRow)
    (folder : List (List Char)) (prev : Option (List PrevRow))
    (oracle : List Char → Option ResultRow) (df : DF)
    (h : analyze_and_rank_pdfs fe input folder prev oracle = some (.ok df)) :
    (∀ r ∈ df.data, Frac.lt Frac.zero r.row.mid) ∧
    mid_percent "no numbers here".toList = Frac.zero := by
  refine ⟨?_, by decide⟩
  intro r hr
  rcases analyze_ok_cases h with he | he <;> subst he
  · simp at hr
  · exact (mem_filtered_rows (mem_rank_pipeline hr)).2

/-- Witness for C4 on a concrete run producing one ranked row. -/
theorem ranked_output_mid_positive_witness :
    (∀ r ∈ sampleDF.data, Frac.lt Frac.zero r.row.mid) ∧
    mid_percent "no numbers here".toList = Frac.zero :=
  ranked_output_mid_positive true [sampleInput] sampleFolder none sampleOracle
    sampleDF (by decide)

/-- Claim C5: `split_line` splits on tabs exactly when the line has exactly 4
tab characters and otherwise on `|` with surrounding whitespace, and
`_process_pdf` produces a record only when the split yields exactly 5 fields —
any other field count yields no row. -/
theorem split_line_field_arity (l text : List Char) (resp : Option (List Char))
    (fpath : List Char) :
    (l.count '\t' = 4 → split_line l = splitOnChar '\t' l) ∧
    (l.count '\t' ≠ 4 → split_line l = pipe_split l) ∧
    (∀ row, process_pdf text resp fpath = some row →
      ∃ r, resp = some r ∧ (split_line r).length = 5) ∧
    (∀ r, resp = some r → (split_line r).length ≠ 5 →
      process_pdf text resp fpath = none) := by
  refine ⟨fun h => by simp [split_line, h], fun h => by simp [split_line, h], ?_, ?_⟩
  · intro row hrow
    by_cases h300 : text.length < 300
    · simp [process_pdf, h300] at hrow
    · cases resp with
      | none => simp [process_pdf, h300] at hrow
      | some r =>
        refine ⟨r, rfl, ?_⟩
        by_cases hre : r = []
        · simp [process_pdf, h300, hre] at hrow
        · by_cases h5 : (split_line r).length = 5
          · exact h5
          · simp [process_pdf, h300, hre, h5] at hrow
  · intro r hr h5
    subst hr
    by_cases h300 : text.length < 300
    · simp [process_pdf, h300]
    · by_cases hre : r = []
      · simp [process_pdf, h300, hre]
      · simp [process_pdf, h300, hre, h5]

/-- Witness for C5: a 4-tab line is tab-split, and a 4-field answer (one field
short) produces no record. -/
theorem split_line_field_arity_witness :
    split_line tabLine = splitOnChar '\t' tabLine ∧
    process_pdf longText (some fourFieldAnswer) "(1)_f.pdf".toList = none :=
  ⟨(split_line_field_arity tabLine longText (some fourFieldAnswer)
      "(1)_f.pdf".toList).1 (by decide),
   (split_line_field_arity tabLine longText (some fourFieldAnswer)
      "(1)_f.pdf".toList).2.2.2 fourFieldAnswer rfl (by decide)⟩

/-- Claim C6: `_extract_text` returns at most 12000 characters, its result
depends only on the first 5 pages, and any exception while opening or parsing
the PDF yields the empty string instead of propagating. -/
theorem extract_text_bounded (pdf : Except Unit (List (Option (List Char))))
    (pages : List (Option (List Char))) :
    (extract_text pdf).length ≤ 12000 ∧
    extract_text (.ok pages) = extract_text (.ok (pages.take 5)) ∧
    extract_text (.error ()) = [] := by
  have htake : ∀ (ps : List (Option (List Char))) (i : Nat) (txt : List Char),
      extractLoop ps i txt = extractLoop (ps.take (5 - i)) i txt := by
    intro ps
    induction ps with
    | nil => intro i txt; simp [extractLoop]
    | cons p ps ih =>
      intro i txt
      by_cases hstop : 5 ≤ i ∨ 12000 < txt.length
      · rcases Nat.lt_or_ge i 5 with hi | hi
        · have h5 : 5 - i = (5 - (i + 1)) + 1 := by omega
          rw [h5]
          simp only [List.take_succ_cons, extractLoop]
          rw [if_pos hstop, if_pos hstop]
        · have h5 : 5 - i = 0 := by omega
          rw [h5]
          simp only [List.take_zero, extractLoop]
          rw [if_pos hstop]
      · have hi : i < 5 := by omega
        have h5 : 5 - i = (5 - (i + 1)) + 1 := by omega
        rw [h5]
        simp only [List.take_succ_cons, extractLoop]
        rw [if_neg hstop, if_neg hstop]
        exact ih (i + 1) _
  refine ⟨?_, ?_, rfl⟩
  · cases pdf with
    | error e => simp [extract_text]
    | ok ps =>
      simp only [extract_text, List.length_take]
      exact min_le_left _ _
  · show (extractLoop pages 0 []).take 12000 = (extractLoop (pages.take 5) 0 []).take 12000
    rw [htake pages 0 []]

/-- Claim C7: `_download_pdf` never raises — it returns the local path on
success and the tagged string `"FAIL: {url} ({exc})"` on any exception — and
the pool produces exactly one outcome per task, each a function of that task
and its own network behaviour alone, so failing tasks cannot abort the
others; on the ten-task batch where tasks 2 and 7 fail, eight paths and two
failure markers are reported. -/
theorem download_batch_isolated (net : Nat → Except (List Char) Unit)
    (pdf_dir : List Char) (tasks : List (List Char × List Char)) :
    (download_batch net pdf_dir 0 tasks).length = tasks.length ∧
    (∀ i : Nat, (download_batch net pdf_dir 0 tasks)[i]? =
      (tasks[i]?).map fun t => download_pdf (net i) pdf_dir t.1 t.2) ∧
    (∀ exc url scrip, download_pdf (.error exc) pdf_dir url scrip =
      "FAIL: ".toList ++ url ++ " (".toList ++ exc ++ [')']) ∧
    (∀ url scrip, download_pdf (.ok ()) pdf_dir url scrip =
      pdf_dir ++ '/' :: '(' :: (scrip ++ ")_".toList ++ basename url)) ∧
    ((download_batch batchNet "reports".toList 0 batchTasks).filter
      (fun o => "FAIL: ".toList.isPrefixOf o)).length = 2 ∧
    ((download_batch batchNet "reports".toList 0 batchTasks).filter
      (fun o => ¬ "FAIL: ".toList.isPrefixOf o)).length = 8 := by
  have hget : ∀ (k : Nat) (ts : List (List Char × List Char)) (i : Nat),
      (download_batch net pdf_dir k ts)[i]? =
        (ts[i]?).map fun t => download_pdf (net (k + i)) pdf_dir t.1 t.2 := by
    intro k ts
    induction ts generalizing k with
    | nil => intro i; simp [download_batch]
    | cons t ts ih =>
      intro i
      cases i with
      | zero => simp [download_batch]
      | succ j =>
        have harith : k + 1 + j = k + (j + 1) := by omega
        simp [download_batch, ih (k + 1) j, harith]
  have hlen : ∀ (k : Nat) (ts : List (List Char × List Char)),
      (download_batch net pdf_dir k ts).length = ts.length := by
    intro k ts
    induction ts generalizing k with
    | nil => rfl
    | cons t ts ih => simp [download_batch, ih]
  refine ⟨hlen 0 tasks, ?_, fun exc url scrip => rfl, fun url scrip => rfl,
    by decide, by decide⟩
  intro i
  simpa using hget 0 tasks i

/-- Claim C8: the return value distinguishes a run with no candidate rows at
all (the bare `pd.DataFrame()`, no columns) from a run whose candidate rows
were all removed by the positive-midpoint filter (a zero-row table that still
has the full ranked column set). -/
theorem empty_results_distinguishable
    (in1 : List InputRow) (fo1 : List (List Char)) (pr1 : Option (List PrevRow))
    (or1 : List Char → Option ResultRow)
    (in2 : List InputRow) (fo2 : List (List Char)) (pr2 : Option (List PrevRow))
    (or2 : List Char → Option ResultRow)
    (h1a : analyzed_rows in1 fo1 or1 = []) (h1c : carried_rows in1 fo1 pr1 = [])
    (h2a : analyzed_rows in2 fo2 or2 ≠ []) (h2c : carried_rows in2 fo2 pr2 = [])
    (h2f : filtered_rows (analyzed_rows in2 fo2 or2) = []) :
    analyze_and_rank_pdfs true in1 fo1 pr1 or1 = some (.ok ⟨[], []⟩) ∧
    analyze_and_rank_pdfs true in2 fo2 pr2 or2 = some (.ok ⟨ranked_columns, []⟩) ∧
    DF.mk [] [] ≠ DF.mk ranked_columns [] := by
  refine ⟨?_, ?_, by decide⟩
  · simp [analyze_and_rank_pdfs, h1a, h1c]
  · have hrp : rank_pipeline (analyzed_rows in2 fo2 or2) = [] := by
      unfold rank_pipeline sorted_rows
      rw [h2f]
      rfl
    simp [analyze_and_rank_pdfs, h2a, h2c, hrp]

/-- Witness for C8: an empty run versus a run whose only candidate row (price
range "10-15%", midpoint -2.5) is filtered out. -/
theorem empty_results_distinguishable_witness :
    analyze_and_rank_pdfs true [] [] none (fun _ => none) = some (.ok ⟨[], []⟩) ∧
    analyze_and_rank_pdfs true [sampleInput] sampleFolder none negOracle =
      some (.ok ⟨ranked_columns, []⟩) ∧
    DF.mk [] [] ≠ DF.mk ranked_columns [] :=
  empty_results_distinguishable [] [] none (fun _ => none)
    [sampleInput] sampleFolder none negOracle
    (by decide) (by decide) (by decide) (by decide) (by decide)

/-- Claim C9: in every normally returned table, each row's `File` value is
`extract_scrip` of the analyzed row's downloaded file name — a non-empty digit
string or `"N/A"`, never containing `(` and hence never the
`(identifier)_<name>.pdf` name the PDF is stored under. -/
theorem file_column_digits_or_na (fe : Bool) (input : List InputRow)
    (folder : List (List Char)) (prev : Option (List PrevRow))
    (oracle : List Char → Option ResultRow) (df : DF)
    (h : analyze_and_rank_pdfs fe input folder prev oracle = some (.ok df)) :
    ∀ r ∈ df.data,
      (∃ orig ∈ analyzed_rows input folder oracle,
        r.row.file = extract_scrip orig.file) ∧
      ((r.row.file ≠ [] ∧ r.row.file.all Char.isDigit) ∨ r.row.file = NA) ∧
      '(' ∉ r.row.file := by
  intro r hr
  rcases analyze_ok_cases h with he | he <;> subst he
  · simp at hr
  · obtain ⟨⟨orig, ho, he2⟩, _⟩ := mem_filtered_rows (mem_rank_pipeline hr)
    have hf : r.row.file = extract_scrip orig.file := by rw [he2]; rfl
    refine ⟨⟨orig, ho, hf⟩, ?_, ?_⟩
    · rw [hf]; exact (extract_scrip_shape orig.file).1
    · rw [hf]; exact (extract_scrip_shape orig.file).2

/-- Witness for C9 at the one row of a concrete run's table. -/
theorem file_column_digits_or_na_witness :
    (∃ orig ∈ analyzed_rows [sampleInput] sampleFolder sampleOracle,
      (RankedRow.mk 1 (score_row sampleRow)).row.file = extract_scrip orig.file) ∧
    (((RankedRow.mk 1 (score_row sampleRow)).row.file ≠ [] ∧
        (RankedRow.mk 1 (score_row sampleRow)).row.file.all Char.isDigit) ∨
      (RankedRow.mk 1 (score_row sampleRow)).row.file = NA) ∧
    '(' ∉ (RankedRow.mk 1 (score_row sampleRow)).row.file :=
  file_column_digits_or_na true [sampleInput] sampleFolder none sampleOracle
    sampleDF (by decide) (RankedRow.mk 1 (score_row sampleRow)) (by decide)

/-- Claim C10: on "10-15%" the number extraction reads the bounds as 10 and
-15 (the regex takes "-15" as a signed number), the midpoint is -5/2, and a
row with that price-range text never appears in a normally returned table. -/
theorem hyphen_range_negative_excluded (fe : Bool) (input : List InputRow)
    (folder : List (List Char)) (prev : Option (List PrevRow))
    (oracle : List Char → Option ResultRow) (df : DF)
    (h : analyze_and_rank_pdfs fe input folder prev oracle = some (.ok df)) :
    price_mid "10-15%".toList = [⟨10, 1⟩, ⟨-15, 1⟩] ∧
    Frac.eqv (mid_percent "10-15%".toList) ⟨-5, 2⟩ ∧
    ∀ r ∈ df.data, r.row.price_range ≠ "10-15%".toList := by
  refine ⟨by decide, by decide, ?_⟩
  intro r hr hc
  rcases analyze_ok_cases h with he | he <;> subst he
  · simp at hr
  · obtain ⟨⟨orig, ho, he2⟩, hpos⟩ := mem_filtered_rows (mem_rank_pipeline hr)
    have hm : r.row.mid = mid_percent r.row.price_range := by rw [he2]; rfl
    rw [hc] at hm
    rw [hm] at hpos
    exact absurd hpos (by decide)

/-- Witness for C10 on the concrete run whose only candidate row carries the
price range "10-15%" and is excluded. -/
theorem hyphen_range_negative_excluded_witness :
    price_mid "10-15%".toList = [⟨10, 1⟩, ⟨-15, 1⟩] ∧
    Frac.eqv (mid_percent "10-15%".toList) ⟨-5, 2⟩ ∧
    ∀ r ∈ negDF.data, r.row.price_range ≠ "10-15%".toList :=
  hyphen_range_negative_excluded true [sampleInput] sampleFolder none negOracle
    negDF (by decide)

end StockAnalyzer
